import Mathlib

/-!
Psygo Linux shell, `linux/my_application.cc`.

A shallow embedding of the GTK application shell.  The toolkit objects the
source manipulates (`GtkWindow`, `GtkHeaderBar`, `FlView`, the process
environment) become records; every function of the source becomes a function
from the process state to the process state, and the toolkit calls whose only
visible effect is "something happened" are appended to a trace.

The GLib / GTK primitives (`g_strcmp0`, `g_getenv`, `g_setenv`,
`g_application_activate`, ...) are external libraries; they are modelled from
their documented behaviour and keep their C names.
-/

namespace Psygo

/-! ## GLib primitives -/

/-- C `strcmp` on the characters of two strings: the sign of the first
difference, a proper prefix sorting first, zero when there is none (the order
of code points is the order of their UTF-8 bytes). -/
def strcmp_chars : List Char → List Char → Int
  | [], [] => 0
  | [], _ :: _ => -1
  | _ :: _, [] => 1
  | a :: as, b :: bs =>
    if a.toNat < b.toNat then -1
    else if b.toNat < a.toNat then 1
    else strcmp_chars as bs

/-- C `strcmp`. -/
def strcmp (a b : String) : Int :=
  strcmp_chars a.data b.data

/-- GLib `g_strcmp0`: `strcmp` that accepts NULL (here `none`); NULL sorts
before every string and equals only NULL. -/
def g_strcmp0 : Option String → Option String → Int
  | none, none => 0
  | none, some _ => -1
  | some _, none => 1
  | some a, some b => strcmp a b

/-- The process environment: `NAME=value` entries, first match wins. -/
abbrev Environ := List (String × String)

/-- GLib `g_getenv`: the value of a variable, NULL (`none`) when it is unset. -/
def g_getenv (env : Environ) (name : String) : Option String :=
  env.lookup name

/-- GLib `g_setenv`: set a variable; an existing value is replaced only when
`overwrite` is TRUE. -/
def g_setenv (env : Environ) (name value : String) (overwrite : Bool) : Environ :=
  match g_getenv env name with
  | some _ =>
    if overwrite then (name, value) :: env.filter (fun kv => kv.1 != name) else env
  | none => (name, value) :: env

/-! ## Toolkit objects -/

/-- The screen a new window is placed on.  The index is the build-time flag
`GDK_WINDOWING_X11`: an X11 screen only exists in a GDK built with the X11
backend.  An X11 screen carries the window-manager name it reports. -/
inductive GdkScreen : Bool → Type
  | x11 (window_manager_name : Option String) : GdkScreen true
  | wayland (b : Bool) : GdkScreen b
  | broadway (b : Bool) : GdkScreen b

/-- The type check `GDK_IS_X11_SCREEN`. -/
def GDK_IS_X11_SCREEN : {b : Bool} → GdkScreen b → Bool
  | _, .x11 _ => true
  | _, .wayland _ => false
  | _, .broadway _ => false

/-- GDK `gdk_x11_screen_get_window_manager_name`; only meaningful on an X11
screen (the source calls it only there). -/
def gdk_x11_screen_get_window_manager_name : {b : Bool} → GdkScreen b → Option String
  | _, .x11 wm_name => wm_name
  | _, .wayland _ => none
  | _, .broadway _ => none

/-- The Flutter project configuration. -/
structure FlDartProject where
  dart_entrypoint_arguments : Option (List String)
deriving DecidableEq, Repr

/-- The Flutter view widget. -/
structure FlView where
  project : FlDartProject
  plugins_registered : Bool
  visible : Bool
  has_focus : Bool
deriving DecidableEq, Repr

/-- A GTK header bar. -/
structure GtkHeaderBar where
  visible : Bool
  title : Option String
  show_close_button : Bool
deriving DecidableEq, Repr

/-- The fields of `GdkGeometry` the source fills in (the hint mask passed with
it is `GDK_HINT_MIN_SIZE`, so only these are read). -/
structure GdkGeometry where
  min_width : Int
  min_height : Int
deriving DecidableEq, Repr

/-- A GTK top-level window. -/
structure GtkWindow where
  titlebar : Option GtkHeaderBar
  title : Option String
  default_width : Int
  default_height : Int
  geometry_hints : Option GdkGeometry
  child : Option FlView
  visible : Bool
deriving DecidableEq, Repr

/-- The `GtkApplication` parent instance: the windows of the application (as
returned by `gtk_application_get_windows`) and whether this process is a
remote (non-primary) instance. -/
structure GtkApplication where
  windows : List GtkWindow
  is_remote : Bool
deriving DecidableEq, Repr

/-- The record `struct _MyApplication`. -/
structure MyApplication where
  parent_instance : GtkApplication
  dart_entrypoint_arguments : Option (List String)
deriving DecidableEq, Repr

/-- Toolkit calls recorded in the trace. -/
inductive Event
  | gtk_window_present (window : GtkWindow)
  | g_setenv (name value : String) (overwrite : Bool)
  | gtk_style_context_add_provider_for_screen (css : String)
  | g_warning (message : String)
  | g_application_activate
  | activate_sent_to_primary
deriving DecidableEq, Repr

/-- The process: the application object, the environment and the trace of
toolkit calls made so far. -/
structure Process where
  application : MyApplication
  environ : Environ
  trace : List Event
deriving DecidableEq, Repr

/-- GTK `gtk_application_window_new`: a blank window (no title bar, no title,
default size unset, which GTK writes as -1). -/
def gtk_application_window_new : GtkWindow :=
  { titlebar := none, title := none, default_width := -1, default_height := -1,
    geometry_hints := none, child := none, visible := false }

/-- GTK `gtk_header_bar_new`: a header bar not yet shown, without title and
without close button. -/
def gtk_header_bar_new : GtkHeaderBar :=
  { visible := false, title := none, show_close_button := false }

/-- GTK `gtk_application_add_window` (done by `gtk_application_window_new`):
the window is put at the front of the application's list. -/
def gtk_application_add_window (app : MyApplication) (window : GtkWindow) : MyApplication :=
  { app with parent_instance :=
      { app.parent_instance with windows := window :: app.parent_instance.windows } }

/-! ## The source functions -/

/-- The style sheet loaded into the CSS provider. -/
def header_bar_css : String :=
  "headerbar .title \x7b color: #000000; \x7d" ++
  "headerbar:backdrop .title \x7b color: #000000; \x7d"

/-- Source `my_application_activate` (implements `GApplication::activate`).
The window is a pointer in the source, already registered with the application
when it is configured; here it is configured first and registered last. -/
def my_application_activate (GDK_WINDOWING_X11 : Bool)
    (screen : GdkScreen GDK_WINDOWING_X11) (p : Process) : Process :=
  let self := p.application
  match self.parent_instance.windows with
  | existing_window :: _ =>
    { p with trace := p.trace ++ [Event.gtk_window_present existing_window] }
  | [] =>
    let window := gtk_application_window_new
    let use_header_bar := true
    let gtk_csd_env := g_getenv p.environ "GTK_CSD"
    let use_header_bar :=
      if gtk_csd_env ≠ none ∧ g_strcmp0 gtk_csd_env (some "1") ≠ 0 then false
      else use_header_bar
    let chrome : Bool × Environ × List Event :=
      if GDK_WINDOWING_X11 then
        if GDK_IS_X11_SCREEN screen then
          let wm_name := gdk_x11_screen_get_window_manager_name screen
          if g_strcmp0 wm_name (some "GNOME Shell") ≠ 0 then
            (false, g_setenv p.environ "GTK_CSD" "0" true,
              p.trace ++ [Event.g_setenv "GTK_CSD" "0" true])
          else (use_header_bar, p.environ, p.trace)
        else (use_header_bar, p.environ, p.trace)
      else (use_header_bar, p.environ, p.trace)
    let use_header_bar := chrome.1
    let environ := chrome.2.1
    let trace := chrome.2.2
    let styled : GtkWindow × List Event :=
      if use_header_bar then
        let header_bar := gtk_header_bar_new
        let header_bar := { header_bar with visible := true }
        let header_bar := { header_bar with title := some "Psygo" }
        let header_bar := { header_bar with show_close_button := true }
        ({ window with titlebar := some header_bar },
          trace ++ [Event.gtk_style_context_add_provider_for_screen header_bar_css])
      else
        ({ window with title := some "Psygo" }, trace)
    let window := styled.1
    let trace := styled.2
    let window := { window with default_width := 864, default_height := 720 }
    let geometry : GdkGeometry := { min_width := 960, min_height := 600 }
    let window := { window with geometry_hints := some geometry }
    let project : FlDartProject :=
      { dart_entrypoint_arguments := self.dart_entrypoint_arguments }
    let view : FlView :=
      { project := project, plugins_registered := false, visible := false, has_focus := false }
    let window := { window with child := some view }
    let view := { view with plugins_registered := true }
    let window := { window with child := some view, visible := true }
    let view := { view with visible := true }
    let view := { view with has_focus := true }
    let window := { window with child := some view }
    { application := gtk_application_add_window self window,
      environ := environ,
      trace := trace }

/-- GLib `g_application_activate`: a remote instance sends the request to the
primary instance; the primary instance emits `activate`, whose class handler
is `my_application_activate`. -/
def g_application_activate (GDK_WINDOWING_X11 : Bool)
    (screen : GdkScreen GDK_WINDOWING_X11) (p : Process) : Process :=
  let p := { p with trace := p.trace ++ [Event.g_application_activate] }
  if p.application.parent_instance.is_remote then
    { p with trace := p.trace ++ [Event.activate_sent_to_primary] }
  else my_application_activate GDK_WINDOWING_X11 screen p

/-- What `g_application_register` did: it failed with an error message, or it
registered the process as primary (`is_remote = false`) or remote instance. -/
inductive RegisterOutcome
  | error (message : String)
  | registered (is_remote : Bool)
deriving DecidableEq, Repr

/-- What `my_application_local_command_line` leaves behind: the process state,
the value stored through `exit_status`, and the returned `gboolean`. -/
structure LocalCommandLine where
  process : Process
  exit_status : Int
  handled : Bool
deriving DecidableEq, Repr

/-- Source `my_application_local_command_line` (implements
`GApplication::local_command_line`).  `*arguments + 1` is the vector after the
binary name; on a vector without a first element the pointer is past the
terminator and the C behaviour is undefined (`none`). -/
def my_application_local_command_line (GDK_WINDOWING_X11 : Bool)
    (screen : GdkScreen GDK_WINDOWING_X11) (p : Process) (arguments : List String)
    (register : RegisterOutcome) : Option LocalCommandLine :=
  match arguments with
  | [] => none
  | _ :: rest =>
    let p := { p with application :=
      { p.application with dart_entrypoint_arguments := some rest } }
    match register with
    | .error message =>
      some { process := { p with trace := p.trace ++
                [Event.g_warning ("Failed to register: " ++ message)] },
             exit_status := 1, handled := true }
    | .registered is_remote =>
      let p := { p with application := { p.application with parent_instance :=
        { p.application.parent_instance with is_remote := is_remote } } }
      let p := g_application_activate GDK_WINDOWING_X11 screen p
      some { process := p, exit_status := 0, handled := true }

/-- A run of activation requests in one process, one screen reading per
request; no window is removed in between. -/
def activations (GDK_WINDOWING_X11 : Bool) :
    Process → List (GdkScreen GDK_WINDOWING_X11) → Process
  | p, [] => p
  | p, screen :: rest =>
    activations GDK_WINDOWING_X11 (my_application_activate GDK_WINDOWING_X11 screen p) rest

/-- Number of `g_setenv` calls in a trace. -/
def setenv_calls (trace : List Event) : Nat :=
  (trace.filter (fun e => match e with | .g_setenv _ _ _ => true | _ => false)).length

/-- Number of `g_application_activate` calls in a trace. -/
def activate_requests (trace : List Event) : Nat :=
  trace.count Event.g_application_activate

/-- A process at start: no window, nothing stored, given environment. -/
def start (environ : Environ) : Process :=
  { application := { parent_instance := { windows := [], is_remote := false },
                     dart_entrypoint_arguments := none },
    environ := environ, trace := [] }

/-! ## The windows an activation can build -/

/-- The view a fresh activation embeds: bound to a project with the given
entrypoint arguments, plugins registered, shown and focused. -/
def embedded_view (arguments : Option (List String)) : FlView :=
  { project := { dart_entrypoint_arguments := arguments },
    plugins_registered := true, visible := true, has_focus := true }

/-- The window a fresh activation builds in header-bar mode. -/
def header_bar_window (arguments : Option (List String)) : GtkWindow :=
  { titlebar := some { visible := true, title := some "Psygo", show_close_button := true },
    title := none, default_width := 864, default_height := 720,
    geometry_hints := some { min_width := 960, min_height := 600 },
    child := some (embedded_view arguments), visible := true }

/-- The window a fresh activation builds in title-bar mode. -/
def title_bar_window (arguments : Option (List String)) : GtkWindow :=
  { titlebar := none,
    title := some "Psygo", default_width := 864, default_height := 720,
    geometry_hints := some { min_width := 960, min_height := 600 },
    child := some (embedded_view arguments), visible := true }

/-! ## Facts about the primitives -/

theorem strcmp_chars_eq_zero (a b : List Char) : strcmp_chars a b = 0 ↔ a = b := by
  induction a generalizing b with
  | nil => cases b <;> simp [strcmp_chars]
  | cons x xs ih =>
    cases b with
    | nil => simp [strcmp_chars]
    | cons y ys =>
      simp only [strcmp_chars]
      split_ifs with h1 h2
      · simp; intro h; subst h; omega
      · simp; intro h; subst h; omega
      · have hxy : x = y := by
          rw [← Char.ofNat_toNat x, ← Char.ofNat_toNat y]
          congr 1; omega
        simp [ih, hxy]

theorem strcmp_eq_zero (a b : String) : strcmp a b = 0 ↔ a = b := by
  rw [strcmp, strcmp_chars_eq_zero, String.ext_iff]

theorem g_getenv_g_setenv (env : Environ) (name value : String) :
    g_getenv (g_setenv env name value true) name = some value := by
  unfold g_setenv
  cases h : g_getenv env name <;> simp [g_getenv, List.lookup]

/-- The test `g_strcmp0 a b != 0` of the source says exactly that the two
(possibly NULL) strings differ. -/
theorem g_strcmp0_eq_zero (a b : Option String) : g_strcmp0 a b = 0 ↔ a = b := by
  cases a <;> cases b <;> simp [g_strcmp0, strcmp_eq_zero]

/-! ## Activation -/

/-- The guard of `my_application_activate`: with a window in the list nothing
happens except that the first listed window is presented. -/
theorem activate_existing (X : Bool) (screen : GdkScreen X) (p : Process)
    (w : GtkWindow) (ws : List GtkWindow)
    (h : p.application.parent_instance.windows = w :: ws) :
    my_application_activate X screen p
      = { p with trace := p.trace ++ [Event.gtk_window_present w] } := by
  simp [my_application_activate, h]

/-- The three outcomes of a fresh activation: the X11 fallback (title bar,
environment written), the override (title bar, nothing written), and the
default (header bar, style sheet installed). -/
theorem activate_fresh (X : Bool) (screen : GdkScreen X) (p : Process)
    (h : p.application.parent_instance.windows = []) :
    my_application_activate X screen p =
      if GDK_IS_X11_SCREEN screen = true ∧
          gdk_x11_screen_get_window_manager_name screen ≠ some "GNOME Shell" then
        { application := gtk_application_add_window p.application
            (title_bar_window p.application.dart_entrypoint_arguments),
          environ := g_setenv p.environ "GTK_CSD" "0" true,
          trace := p.trace ++ [Event.g_setenv "GTK_CSD" "0" true] }
      else if g_getenv p.environ "GTK_CSD" ≠ none ∧ g_getenv p.environ "GTK_CSD" ≠ some "1" then
        { application := gtk_application_add_window p.application
            (title_bar_window p.application.dart_entrypoint_arguments),
          environ := p.environ,
          trace := p.trace }
      else
        { application := gtk_application_add_window p.application
            (header_bar_window p.application.dart_entrypoint_arguments),
          environ := p.environ,
          trace := p.trace ++
            [Event.gtk_style_context_add_provider_for_screen header_bar_css] } := by
  cases screen <;>
    simp only [my_application_activate, h, GDK_IS_X11_SCREEN,
      gdk_x11_screen_get_window_manager_name, g_strcmp0_eq_zero, gtk_application_window_new,
      gtk_header_bar_new, title_bar_window, header_bar_window, embedded_view, ne_eq] <;>
    split_ifs <;> simp_all

theorem add_window_windows (app : MyApplication) (w : GtkWindow) :
    (gtk_application_add_window app w).parent_instance.windows
      = w :: app.parent_instance.windows := rfl

/-- The window list after a fresh activation: exactly the one window built,
in title-bar mode when the override or the X11 fallback applies. -/
theorem activate_fresh_window_list (X : Bool) (screen : GdkScreen X) (p : Process)
    (h : p.application.parent_instance.windows = []) :
    (my_application_activate X screen p).application.parent_instance.windows =
      [if (g_getenv p.environ "GTK_CSD" ≠ none ∧ g_getenv p.environ "GTK_CSD" ≠ some "1") ∨
          (GDK_IS_X11_SCREEN screen = true ∧
            gdk_x11_screen_get_window_manager_name screen ≠ some "GNOME Shell")
        then title_bar_window p.application.dart_entrypoint_arguments
        else header_bar_window p.application.dart_entrypoint_arguments] := by
  rw [activate_fresh X screen p h]
  by_cases hx : GDK_IS_X11_SCREEN screen = true ∧
      gdk_x11_screen_get_window_manager_name screen ≠ some "GNOME Shell"
  · simp [hx, add_window_windows, h]
  · by_cases hc : g_getenv p.environ "GTK_CSD" ≠ none ∧ g_getenv p.environ "GTK_CSD" ≠ some "1"
    · simp [hx, hc, add_window_windows, h]
    · rw [if_neg hx, if_neg hc, if_neg (not_or.mpr ⟨hc, hx⟩)]
      simp [add_window_windows, h]

theorem activate_fresh_windows (X : Bool) (screen : GdkScreen X) (p : Process)
    (h : p.application.parent_instance.windows = []) :
    ∃ w, (my_application_activate X screen p).application.parent_instance.windows = [w] :=
  ⟨_, activate_fresh_window_list X screen p h⟩

theorem activate_windows_le_one (X : Bool) (screen : GdkScreen X) (p : Process)
    (h : p.application.parent_instance.windows.length ≤ 1) :
    (my_application_activate X screen p).application.parent_instance.windows.length ≤ 1 := by
  cases hw : p.application.parent_instance.windows with
  | nil =>
    obtain ⟨w, hw1⟩ := activate_fresh_windows X screen p hw
    simp [hw1]
  | cons w ws =>
    rw [activate_existing X screen p w ws hw]
    exact h

theorem activations_windows_le_one (X : Bool) (screens : List (GdkScreen X)) (p : Process)
    (h : p.application.parent_instance.windows.length ≤ 1) :
    (activations X p screens).application.parent_instance.windows.length ≤ 1 := by
  induction screens generalizing p with
  | nil => simpa [activations] using h
  | cons s ss ih =>
    simp only [activations]
    exact ih _ (activate_windows_le_one X s p h)

theorem setenv_calls_append (t u : List Event) :
    setenv_calls (t ++ u) = setenv_calls t + setenv_calls u := by
  simp [setenv_calls, List.filter_append]

theorem activate_requests_append (t u : List Event) :
    activate_requests (t ++ u) = activate_requests t + activate_requests u := by
  simp [activate_requests, List.count_append]

/-- Activations made while a window exists leave the window list and the
environment alone and make no `g_setenv` call. -/
theorem activations_existing (X : Bool) (screens : List (GdkScreen X)) (p : Process)
    (w : GtkWindow) (ws : List GtkWindow)
    (h : p.application.parent_instance.windows = w :: ws) :
    (activations X p screens).application = p.application ∧
    (activations X p screens).environ = p.environ ∧
    setenv_calls (activations X p screens).trace = setenv_calls p.trace := by
  induction screens generalizing p with
  | nil => simp [activations]
  | cons s ss ih =>
    simp only [activations]
    rw [activate_existing X s p w ws h]
    obtain ⟨h1, h2, h3⟩ := ih { p with trace := p.trace ++ [Event.gtk_window_present w] } h
    refine ⟨h1, h2, ?_⟩
    rw [h3, setenv_calls_append]
    simp [setenv_calls]

theorem activate_fresh_setenv_calls (X : Bool) (screen : GdkScreen X) (p : Process)
    (h : p.application.parent_instance.windows = []) :
    setenv_calls (my_application_activate X screen p).trace ≤ setenv_calls p.trace + 1 := by
  rw [activate_fresh X screen p h]
  split_ifs <;> simp [setenv_calls_append, setenv_calls]

theorem activate_activate_requests (X : Bool) (screen : GdkScreen X) (p : Process) :
    activate_requests (my_application_activate X screen p).trace = activate_requests p.trace := by
  cases hw : p.application.parent_instance.windows with
  | nil =>
    rw [activate_fresh X screen p hw]
    split_ifs <;> simp [activate_requests_append, activate_requests]
  | cons w ws =>
    rw [activate_existing X screen p w ws hw]
    simp [activate_requests_append, activate_requests]

/-! ## The claims -/

/-- C1. Single-window invariant: in every run of activation requests that
starts without a window, the application holds at most one window after every
step; an activation made while a window exists changes neither the
application (no window is created) nor the environment, and presents the first
listed window. -/
theorem single_window_invariant (X : Bool) (p : Process) (screens : List (GdkScreen X))
    (h : p.application.parent_instance.windows = []) :
    (∀ k, (activations X p (screens.take k)).application.parent_instance.windows.length ≤ 1) ∧
    (∀ (q : Process) (screen : GdkScreen X) (w : GtkWindow) (ws : List GtkWindow),
      q.application.parent_instance.windows = w :: ws →
        (my_application_activate X screen q).application = q.application ∧
        (my_application_activate X screen q).environ = q.environ ∧
        (my_application_activate X screen q).trace
          = q.trace ++ [Event.gtk_window_present w]) := by
  constructor
  · intro k
    exact activations_windows_le_one X _ p (by simp [h])
  · intro q screen w ws hq
    rw [activate_existing X screen q w ws hq]
    exact ⟨rfl, rfl, rfl⟩

theorem single_window_invariant_witness :
    (start []).application.parent_instance.windows = [] ∧
    (activations true (start [])
      ([GdkScreen.x11 (some "KDE"), GdkScreen.wayland true].take 2)).application.parent_instance.windows.length
        ≤ 1 :=
  ⟨rfl, (single_window_invariant true (start [])
    [GdkScreen.x11 (some "KDE"), GdkScreen.wayland true] rfl).1 2⟩

/-- C2. Chrome-style decision: the window built by a fresh activation is in
title-bar mode (no header bar attached) if and only if GTK_CSD is set and
differs from "1", or the screen is X11 and its window-manager name differs
from "GNOME Shell". -/
theorem chrome_style_decision (X : Bool) (screen : GdkScreen X) (p : Process)
    (h : p.application.parent_instance.windows = []) :
    ∃ w, (my_application_activate X screen p).application.parent_instance.windows = [w] ∧
      (w.titlebar = none ↔
        ((g_getenv p.environ "GTK_CSD" ≠ none ∧ g_getenv p.environ "GTK_CSD" ≠ some "1") ∨
         (GDK_IS_X11_SCREEN screen = true ∧
            gdk_x11_screen_get_window_manager_name screen ≠ some "GNOME Shell"))) := by
  refine ⟨_, activate_fresh_window_list X screen p h, ?_⟩
  split_ifs with hc
  · simp [title_bar_window, hc]
  · simp [header_bar_window, hc]

theorem chrome_style_decision_witness :
    (start [("GTK_CSD", "1")]).application.parent_instance.windows = [] ∧
    ∃ w, (my_application_activate true (GdkScreen.x11 (some "KDE"))
        (start [("GTK_CSD", "1")])).application.parent_instance.windows = [w] ∧
      (w.titlebar = none ↔
        ((g_getenv (start [("GTK_CSD", "1")]).environ "GTK_CSD" ≠ none ∧
            g_getenv (start [("GTK_CSD", "1")]).environ "GTK_CSD" ≠ some "1") ∨
         (GDK_IS_X11_SCREEN (GdkScreen.x11 (some "KDE")) = true ∧
            gdk_x11_screen_get_window_manager_name (GdkScreen.x11 (some "KDE"))
              ≠ some "GNOME Shell"))) :=
  ⟨rfl, chrome_style_decision true (GdkScreen.x11 (some "KDE")) (start [("GTK_CSD", "1")]) rfl⟩

/-- C3. Command-line forwarding: for every argument vector with a first
element (the binary name), `my_application_local_command_line` on a primary
instance without a window stores the vector without its first element, and the
fresh activation it triggers hands exactly that vector, unchanged, to the
project of the view embedded in the new window. -/
theorem command_line_forwarding (X : Bool) (screen : GdkScreen X) (p : Process)
    (binary : String) (rest : List String)
    (h : p.application.parent_instance.windows = []) :
    ∃ r w v,
      my_application_local_command_line X screen p (binary :: rest)
        (RegisterOutcome.registered false) = some r ∧
      r.process.application.dart_entrypoint_arguments = some rest ∧
      r.process.application.parent_instance.windows = [w] ∧
      w.child = some v ∧
      v.project.dart_entrypoint_arguments = some rest := by
  have hq : (⟨⟨⟨p.application.parent_instance.windows, false⟩, some rest⟩, p.environ,
      p.trace ++ [Event.g_application_activate]⟩ : Process).application.parent_instance.windows
        = [] := h
  simp only [my_application_local_command_line, g_application_activate, Bool.false_eq_true,
    if_false]
  refine ⟨_, _, embedded_view (some rest), rfl, ?_, activate_fresh_window_list X screen _ hq, ?_, rfl⟩
  · simp only [activate_fresh X screen _ hq]
    split_ifs <;> rfl
  · split_ifs <;> rfl

theorem command_line_forwarding_witness :
    (start []).application.parent_instance.windows = [] ∧
    ∃ r w v,
      my_application_local_command_line false (GdkScreen.wayland false) (start [])
        ("psygo" :: ["--flag", "value"]) (RegisterOutcome.registered false) = some r ∧
      r.process.application.dart_entrypoint_arguments = some ["--flag", "value"] ∧
      r.process.application.parent_instance.windows = [w] ∧
      w.child = some v ∧
      v.project.dart_entrypoint_arguments = some ["--flag", "value"] :=
  ⟨rfl, command_line_forwarding false (GdkScreen.wayland false) (start [])
    "psygo" ["--flag", "value"] rfl⟩

/-- C4, as stated, fails: on the argument vector without any element
`*arguments + 1` points past the terminator, so the call has no defined
result; it neither returns TRUE with exit status 1 when registration fails nor
returns TRUE with exit status 0 when registration succeeds. -/
theorem registration_outcome_empty_vector :
    (¬ ∃ r, my_application_local_command_line false (GdkScreen.wayland false) (start []) []
        (RegisterOutcome.error "name taken") = some r ∧
      r.handled = true ∧ r.exit_status = 1) ∧
    (¬ ∃ r, my_application_local_command_line false (GdkScreen.wayland false) (start []) []
        (RegisterOutcome.registered false) = some r ∧
      r.handled = true ∧ r.exit_status = 0) := by
  constructor <;> simp [my_application_local_command_line]

/-- C4, amended. Registration outcome: on every argument vector with at least
one element (the binary name) `my_application_local_command_line` returns
TRUE; when registration fails it stores exit status 1, logs the warning,
requests no activation and leaves the window list as it was; when registration
succeeds it requests activation exactly once and stores exit status 0. -/
theorem registration_outcome (X : Bool) (screen : GdkScreen X) (p : Process)
    (binary : String) (rest : List String) (register : RegisterOutcome) :
    ∃ r,
      my_application_local_command_line X screen p (binary :: rest) register = some r ∧
      r.handled = true ∧
      match register with
      | RegisterOutcome.error message =>
        r.exit_status = 1 ∧
        r.process.trace = p.trace ++ [Event.g_warning ("Failed to register: " ++ message)] ∧
        activate_requests r.process.trace = activate_requests p.trace ∧
        r.process.application.parent_instance.windows = p.application.parent_instance.windows
      | RegisterOutcome.registered _ =>
        r.exit_status = 0 ∧
        activate_requests r.process.trace = activate_requests p.trace + 1 := by
  cases register with
  | error message =>
    refine ⟨_, rfl, rfl, rfl, rfl, ?_, rfl⟩
    simp [activate_requests_append, activate_requests]
  | registered is_remote =>
    refine ⟨_, rfl, rfl, rfl, ?_⟩
    cases is_remote
    · simp only [g_application_activate, Bool.false_eq_true, if_false]
      rw [activate_activate_requests, activate_requests_append]
      simp [activate_requests]
    · simp [g_application_activate, activate_requests_append, activate_requests]

/-- C5, as stated, fails: with GTK_CSD exactly "1" on an X11 screen whose
window manager is "KDE", the window of a fresh activation gets no header
bar. -/
theorem override_one_x11_kde_no_header_bar :
    g_getenv (start [("GTK_CSD", "1")]).environ "GTK_CSD" = some "1" ∧
    (my_application_activate true (GdkScreen.x11 (some "KDE"))
      (start [("GTK_CSD", "1")])).application.parent_instance.windows.map (fun w => w.titlebar)
        = [none] := by
  decide

/-- C5, amended. When GTK_CSD is exactly "1" and the X11 fallback does not
apply (the screen is not X11, or its window manager is "GNOME Shell"), a fresh
activation constructs a header bar (shown, titled, with close button) and
attaches it as the title bar of the window. -/
theorem override_one_keeps_header_bar (X : Bool) (screen : GdkScreen X) (p : Process)
    (h : p.application.parent_instance.windows = [])
    (hcsd : g_getenv p.environ "GTK_CSD" = some "1")
    (hx : ¬ (GDK_IS_X11_SCREEN screen = true ∧
      gdk_x11_screen_get_window_manager_name screen ≠ some "GNOME Shell")) :
    ∃ w, (my_application_activate X screen p).application.parent_instance.windows = [w] ∧
      w.titlebar = some { visible := true, title := some "Psygo", show_close_button := true } := by
  refine ⟨_, activate_fresh_window_list X screen p h, ?_⟩
  rw [if_neg (by simp [hcsd, hx])]
  rfl

theorem override_one_keeps_header_bar_witness :
    (start [("GTK_CSD", "1")]).application.parent_instance.windows = [] ∧
    g_getenv (start [("GTK_CSD", "1")]).environ "GTK_CSD" = some "1" ∧
    ∃ w, (my_application_activate true (GdkScreen.x11 (some "GNOME Shell"))
        (start [("GTK_CSD", "1")])).application.parent_instance.windows = [w] ∧
      w.titlebar = some { visible := true, title := some "Psygo", show_close_button := true } :=
  ⟨rfl, by decide,
    override_one_keeps_header_bar true (GdkScreen.x11 (some "GNOME Shell"))
      (start [("GTK_CSD", "1")]) rfl (by decide) (by decide)⟩

/-- C6, as stated, fails: with GTK_CSD set to "2" on a Wayland screen, the
environment after a fresh activation still holds "2", not "0". -/
theorem forced_off_override_not_propagated :
    g_getenv (start [("GTK_CSD", "2")]).environ "GTK_CSD" = some "2" ∧
    g_getenv (my_application_activate false (GdkScreen.wayland false)
      (start [("GTK_CSD", "2")])).environ "GTK_CSD" = some "2" ∧
    g_getenv (my_application_activate false (GdkScreen.wayland false)
      (start [("GTK_CSD", "2")])).environ "GTK_CSD" ≠ some "0" := by
  decide

/-- C6, amended. When GTK_CSD is set to a value other than "1", after a fresh
activation it holds "0" if the screen is X11 with a window-manager name other
than "GNOME Shell", and otherwise still holds the value it had. -/
theorem forced_off_override_environment (X : Bool) (screen : GdkScreen X) (p : Process)
    (value : String)
    (h : p.application.parent_instance.windows = [])
    (hcsd : g_getenv p.environ "GTK_CSD" = some value) (hne : value ≠ "1") :
    g_getenv (my_application_activate X screen p).environ "GTK_CSD" =
      if GDK_IS_X11_SCREEN screen = true ∧
          gdk_x11_screen_get_window_manager_name screen ≠ some "GNOME Shell"
      then some "0" else some value := by
  rw [activate_fresh X screen p h]
  by_cases hx : GDK_IS_X11_SCREEN screen = true ∧
      gdk_x11_screen_get_window_manager_name screen ≠ some "GNOME Shell"
  · simp only [if_pos hx, g_getenv_g_setenv]
  · have hc : g_getenv p.environ "GTK_CSD" ≠ none ∧ g_getenv p.environ "GTK_CSD" ≠ some "1" := by
      simp [hcsd, hne]
    rw [if_neg hx, if_pos hc, if_neg hx]
    exact hcsd

theorem forced_off_override_environment_witness :
    (start [("GTK_CSD", "2")]).application.parent_instance.windows = [] ∧
    g_getenv (start [("GTK_CSD", "2")]).environ "GTK_CSD" = some "2" ∧ "2" ≠ "1" ∧
    g_getenv (my_application_activate true (GdkScreen.x11 (some "KDE"))
        (start [("GTK_CSD", "2")])).environ "GTK_CSD" =
      if GDK_IS_X11_SCREEN (GdkScreen.x11 (some "KDE")) = true ∧
          gdk_x11_screen_get_window_manager_name (GdkScreen.x11 (some "KDE"))
            ≠ some "GNOME Shell"
      then some "0" else some "2" :=
  ⟨rfl, by decide, by decide,
    forced_off_override_environment true (GdkScreen.x11 (some "KDE"))
      (start [("GTK_CSD", "2")]) "2" rfl (by decide) (by decide)⟩

/-- C7. The window sizes a fresh activation sets: default size 864 x 720 and
minimum-size hint 960 x 600.  The two are distinct and the default height is
at least the minimum height, but the default width is smaller than the minimum
width. -/
theorem default_width_below_minimum (X : Bool) (screen : GdkScreen X) (environ : Environ) :
    ∃ w g, (my_application_activate X screen (start environ)).application.parent_instance.windows
        = [w] ∧
      w.geometry_hints = some g ∧
      (w.default_width, w.default_height) = (864, 720) ∧
      (g.min_width, g.min_height) = (960, 600) ∧
      w.default_height ≥ g.min_height ∧
      w.default_width < g.min_width := by
  refine ⟨_, ⟨960, 600⟩, activate_fresh_window_list X screen (start environ) rfl, ?_⟩
  split_ifs <;> simp [title_bar_window, header_bar_window]

/-- C8. Environment write on the X11 fallback: in a fresh activation, when the
screen is X11 and its window-manager name is not "GNOME Shell" (an absent name
included) the one `g_setenv` call overwrites GTK_CSD, which then reads "0",
whatever it held before; in every other case no `g_setenv` call is made and
the environment is left as it was. -/
theorem x11_fallback_environment_write (X : Bool) (screen : GdkScreen X) (p : Process)
    (h : p.application.parent_instance.windows = []) :
    ((GDK_IS_X11_SCREEN screen = true ∧
        gdk_x11_screen_get_window_manager_name screen ≠ some "GNOME Shell") →
      (my_application_activate X screen p).environ = g_setenv p.environ "GTK_CSD" "0" true ∧
      g_getenv (my_application_activate X screen p).environ "GTK_CSD" = some "0" ∧
      (my_application_activate X screen p).trace
        = p.trace ++ [Event.g_setenv "GTK_CSD" "0" true] ∧
      setenv_calls (my_application_activate X screen p).trace = setenv_calls p.trace + 1) ∧
    (¬ (GDK_IS_X11_SCREEN screen = true ∧
        gdk_x11_screen_get_window_manager_name screen ≠ some "GNOME Shell") →
      (my_application_activate X screen p).environ = p.environ ∧
      setenv_calls (my_application_activate X screen p).trace = setenv_calls p.trace) := by
  rw [activate_fresh X screen p h]
  constructor
  · intro hx
    rw [if_pos hx]
    refine ⟨rfl, g_getenv_g_setenv _ _ _, rfl, ?_⟩
    simp [setenv_calls_append, setenv_calls]
  · intro hx
    rw [if_neg hx]
    split_ifs
    · exact ⟨rfl, rfl⟩
    · refine ⟨rfl, ?_⟩
      simp [setenv_calls_append, setenv_calls]

theorem x11_fallback_environment_write_witness :
    (start [("GTK_CSD", "1")]).application.parent_instance.windows = [] ∧
    g_getenv (my_application_activate true (GdkScreen.x11 none)
      (start [("GTK_CSD", "1")])).environ "GTK_CSD" = some "0" :=
  ⟨rfl, ((x11_fallback_environment_write true (GdkScreen.x11 none)
    (start [("GTK_CSD", "1")]) rfl).1 (by decide)).2.1⟩

/-- C9. Title-bar fallback: every fresh activation builds one window that
carries the title "Psygo" in exactly one place, either as the title of an
attached header bar (plain title unset) or as the plain window title (no
header bar attached); on an X11 screen whose window-manager name is not
"GNOME Shell" it is the plain window title, whatever GTK_CSD holds. -/
theorem title_bar_fallback (X : Bool) (screen : GdkScreen X) (p : Process)
    (h : p.application.parent_instance.windows = []) :
    ∃ w, (my_application_activate X screen p).application.parent_instance.windows = [w] ∧
      ((w.titlebar = none ∧ w.title = some "Psygo") ∨
       (∃ header_bar, w.titlebar = some header_bar ∧ header_bar.title = some "Psygo" ∧
          w.title = none)) ∧
      ((GDK_IS_X11_SCREEN screen = true ∧
          gdk_x11_screen_get_window_manager_name screen ≠ some "GNOME Shell") →
        w.titlebar = none ∧ w.title = some "Psygo") := by
  refine ⟨_, activate_fresh_window_list X screen p h, ?_, ?_⟩
  · split_ifs
    · exact Or.inl ⟨rfl, rfl⟩
    · exact Or.inr ⟨_, rfl, rfl, rfl⟩
  · intro hx
    rw [if_pos (Or.inr hx)]
    exact ⟨rfl, rfl⟩

theorem title_bar_fallback_witness :
    (start [("GTK_CSD", "1")]).application.parent_instance.windows = [] ∧
    ∃ w, (my_application_activate true (GdkScreen.x11 (some "KDE"))
        (start [("GTK_CSD", "1")])).application.parent_instance.windows = [w] ∧
      w.titlebar = none ∧ w.title = some "Psygo" :=
  ⟨rfl,
    match title_bar_fallback true (GdkScreen.x11 (some "KDE")) (start [("GTK_CSD", "1")]) rfl with
    | ⟨w, hw, _, hx⟩ => ⟨w, hw, hx (by decide)⟩⟩

/-- C10. Environment written at most once: over every run of activation
requests that starts without a window, at most one `g_setenv` call is made;
from the first activation on, the environment and the number of `g_setenv`
calls no longer change. -/
theorem environment_written_at_most_once (X : Bool) (p : Process)
    (screens : List (GdkScreen X))
    (h : p.application.parent_instance.windows = []) :
    setenv_calls (activations X p screens).trace ≤ setenv_calls p.trace + 1 ∧
    (∀ k, 1 ≤ k →
      (activations X p (screens.take k)).environ = (activations X p (screens.take 1)).environ ∧
      setenv_calls (activations X p (screens.take k)).trace
        = setenv_calls (activations X p (screens.take 1)).trace) := by
  cases screens with
  | nil => simp [activations]
  | cons s ss =>
    obtain ⟨w, hw⟩ := activate_fresh_windows X s p h
    constructor
    · simp only [activations]
      rw [(activations_existing X ss _ w [] hw).2.2]
      exact activate_fresh_setenv_calls X s p h
    · intro k hk
      obtain ⟨j, rfl⟩ : ∃ j, k = j + 1 := ⟨k - 1, by omega⟩
      simp only [List.take_succ_cons, List.take_zero, activations]
      exact ⟨(activations_existing X _ _ w [] hw).2.1, (activations_existing X _ _ w [] hw).2.2⟩

theorem environment_written_at_most_once_witness :
    (start []).application.parent_instance.windows = [] ∧
    setenv_calls (activations true (start [])
      [GdkScreen.x11 (some "KDE"), GdkScreen.x11 (some "KDE"), GdkScreen.x11 none]).trace
        ≤ setenv_calls (start []).trace + 1 :=
  ⟨rfl, (environment_written_at_most_once true (start [])
    [GdkScreen.x11 (some "KDE"), GdkScreen.x11 (some "KDE"), GdkScreen.x11 none] rfl).1⟩

end Psygo
